import Mathlib

/-!
# Verification of the sylphie_database connection/transaction/serialization subsystem

Shallow embedding of `src/sylphie_database/src/connection/mod.rs` and
`src/sylphie_database/src/serializable.rs`.

The embedding models:
* `BlockingWrapper<T>` — the single-owner bridge holding `Option<T>`;
* the pooled checkout (`PooledConnection`, whose implementation file
  `connection/pool.rs` is not part of the given sources — its release
  semantics is modelled from the spec);
* `DbOpsData` with its transaction flags and the drop-triggered rollback;
* `DbTransaction::commit` / `rollback` / `Drop`;
* the streaming-query construction `do_query_stream` / `async_stream`;
* the serialization formats (bincode varint and the direct passthrough).

Sqlite itself is abstracted by an `engine : String → Bool` deciding whether a
batch statement succeeds; every statement issued on the blocking worker, every
checkout release and every side-channel error report is recorded as an `Event`
so that temporal claims (rollback before release, and so on) become statements
about event traces.
-/

namespace Sylphie

/-- Errors surfaced by the subsystem (spec taxonomy §7). `poisoned` is the
`bail!` raised by `BlockingWrapper` when its inner value is gone;
`sqlError` carries the SQL text of the failing statement. -/
inductive Err where
  | poisoned : Err
  | sqlError : String → Err
  | migrationUnsupported : Err
  | other : String → Err
deriving DecidableEq, Repr

/-- Observable events of the connection subsystem, in the order they happen.
`stmt sql ok` is a statement executed on the blocking worker (with its
success bit); `checkoutDropped holdsConn` is the pooled checkout being handed
back to the pool machinery, carrying whether it still holds the connection
(`true` = connection released back to the Pool for reuse, `false` = the lease
is returned empty and the connection is discarded); `reportError` is the
side-channel `report_error` call. -/
inductive Event where
  | stmt : String → Bool → Event
  | checkoutDropped : Bool → Event
  | reportError : Event
deriving DecidableEq, Repr

/-- The raw sqlite connection. Only its statement history is relevant to the
claims; the engine behaviour is abstracted by the `engine` parameter of the
operations. -/
structure Conn where
  history : List String
deriving DecidableEq, Repr

/-- `rusqlite::Connection::execute_batch`: the statement is issued on the
connection; the abstract engine decides success. -/
def Conn.execute_batch (engine : String → Bool) (c : Conn) (sql : String) :
    Conn × Bool × List Event :=
  ({ history := c.history ++ [sql] }, engine sql, [Event.stmt sql (engine sql)])

/-- `BlockingWrapper<T>`: `inner: Option<Box<T>>` (the `Handle` field only
names the worker pool and carries no state relevant to the claims). -/
structure BlockingWrapper (α : Type) where
  inner : Option α
deriving DecidableEq, Repr

/-- Result of one `run_blocking` call: the returned `Result`, the wrapper
afterwards, and whether any work was dispatched to the blocking worker. -/
structure RunResult (α β : Type) where
  result : Except Err β
  wrapper : BlockingWrapper α
  dispatched : Bool
deriving Repr

/-- `BlockingWrapper::run_blocking`: bail with the poisoned error if `inner`
is `None`; otherwise take the value, run `func` on the worker (modelled as a
pure state transformer returning the possibly mutated value and a `Result`),
reinsert the value, and return the result. -/
def BlockingWrapper.run_blocking {α β : Type}
    (w : BlockingWrapper α) (func : α → α × Except Err β) : RunResult α β :=
  match w.inner with
  | none => ⟨Except.error Err.poisoned, w, false⟩
  | some v =>
    let (v2, r) := func v
    ⟨r, ⟨some v2⟩, true⟩

/-- A sequence of `run_blocking` calls on the same wrapper, returning each
call's result/dispatch bit and the final wrapper. -/
def BlockingWrapper.run_many {α β : Type} :
    BlockingWrapper α → List (α → α × Except Err β) →
      List (Except Err β × Bool) × BlockingWrapper α
  | w, [] => ([], w)
  | w, f :: fs =>
    let r := w.run_blocking f
    let rest := r.wrapper.run_many fs
    ((r.result, r.dispatched) :: rest.1, rest.2)

/-- `BlockingWrapper::get`: a reference to the inner value, or the poisoned
error. -/
def BlockingWrapper.get {α : Type} (w : BlockingWrapper α) : Except Err α :=
  match w.inner with
  | some x => Except.ok x
  | none => Except.error Err.poisoned

/-- `BlockingWrapper::take`: moves the inner value into a fresh wrapper and
leaves this one empty. Returns (taken wrapper, self afterwards). -/
def BlockingWrapper.take {α : Type} (w : BlockingWrapper α) :
    BlockingWrapper α × BlockingWrapper α :=
  (⟨w.inner⟩, ⟨none⟩)

/-- Modelled from the spec: `PooledConnection` (its file `connection/pool.rs`
is not among the given sources; only this module's uses of it are). It is the
lease on one pooled connection, dereferencing to the `BlockingWrapper` slot it
holds; on drop it hands the slot back to the Pool — the connection is returned
for reuse exactly when the slot still holds it. -/
structure PooledConnection where
  conn : BlockingWrapper Conn
deriving DecidableEq, Repr

/-- Dropping the checkout: the release event records whether the slot still
holds the connection. -/
def PooledConnection.drop (p : PooledConnection) : List Event :=
  [Event.checkoutDropped p.conn.inner.isSome]

/-- `TransactionType` (Deferred / Immediate / Exclusive). -/
inductive TransactionType where
  | Deferred | Immediate | Exclusive
deriving DecidableEq, Repr

/-- The SQL text chosen by `DbOpsData::begin_transaction` for each kind. -/
def TransactionType.sql : TransactionType → String
  | TransactionType.Exclusive => "BEGIN EXCLUSIVE TRANSACTION;"
  | TransactionType.Immediate => "BEGIN IMMEDIATE TRANSACTION;"
  | TransactionType.Deferred => "BEGIN DEFERRED TRANSACTION;"

/-- `DbOpsData`: the checkout, the bridged connection, the three
transaction-phase flags, and the shared return cell used by streaming queries
(the `Arc<Mutex<Option<_>>>` is modelled by its contents). -/
structure DbOpsData where
  conn_handle : Option PooledConnection
  conn : BlockingWrapper Conn
  is_begin_transaction : Bool
  is_begin_commit : Bool
  is_in_transaction : Bool
  return_cell : Option (Option (BlockingWrapper Conn))
deriving DecidableEq, Repr

/-- Outcome of Rust code that can `panic!` / fail an `assert!` / `unwrap()`:
either a value or an unrecoverable panic. -/
inductive PanicOr (α : Type) where
  | panicked : String → PanicOr α
  | ok : α → PanicOr α
deriving Repr

/-- `DbOpsData::execute_batch`: `self.conn.get()?.execute_batch(&sql)?`. -/
def DbOpsData.execute_batch (engine : String → Bool) (d : DbOpsData)
    (sql : String) : Except Err Unit × DbOpsData × List Event :=
  match d.conn.inner with
  | none => (Except.error Err.poisoned, d, [])
  | some c =>
    let (c2, ok, ev) := c.execute_batch engine sql
    ((if ok then Except.ok () else Except.error (Err.sqlError sql)),
      { d with conn := ⟨some c2⟩ }, ev)

/-- `DbOpsData::begin_transaction`: `assert!(!self.is_in_transaction)`, then
set `is_begin_transaction`, execute the matching BEGIN statement, and on
success set `is_in_transaction` and clear `is_begin_transaction` (a failing
statement returns early with the phase flag still set). -/
def DbOpsData.begin_transaction (engine : String → Bool) (d : DbOpsData)
    (t : TransactionType) :
    PanicOr (Except Err Unit × DbOpsData × List Event) :=
  if d.is_in_transaction then
    PanicOr.panicked "assertion failed: !self.is_in_transaction"
  else
    let d1 := { d with is_begin_transaction := true }
    match d1.execute_batch engine t.sql with
    | (Except.ok _, d2, ev) =>
      PanicOr.ok (Except.ok (),
        { d2 with is_in_transaction := true, is_begin_transaction := false }, ev)
    | (Except.error e, d2, ev) => PanicOr.ok (Except.error e, d2, ev)

/-- `DbOpsData::commit_transaction`: `assert!(self.is_in_transaction)`, set
`is_begin_commit`, execute `COMMIT;`, and on success clear
`is_in_transaction` and `is_begin_commit` (a failing statement returns early
with both flags still set). -/
def DbOpsData.commit_transaction (engine : String → Bool) (d : DbOpsData) :
    PanicOr (Except Err Unit × DbOpsData × List Event) :=
  if d.is_in_transaction then
    let d1 := { d with is_begin_commit := true }
    match d1.execute_batch engine "COMMIT;" with
    | (Except.ok _, d2, ev) =>
      PanicOr.ok (Except.ok (),
        { d2 with is_in_transaction := false, is_begin_commit := false }, ev)
    | (Except.error e, d2, ev) => PanicOr.ok (Except.error e, d2, ev)
  else PanicOr.panicked "assertion failed: self.is_in_transaction"

/-- `DbOpsData::rollback_transaction`: symmetric to `commit_transaction`
with `ROLLBACK;`. -/
def DbOpsData.rollback_transaction (engine : String → Bool) (d : DbOpsData) :
    PanicOr (Except Err Unit × DbOpsData × List Event) :=
  if d.is_in_transaction then
    let d1 := { d with is_begin_commit := true }
    match d1.execute_batch engine "ROLLBACK;" with
    | (Except.ok _, d2, ev) =>
      PanicOr.ok (Except.ok (),
        { d2 with is_in_transaction := false, is_begin_commit := false }, ev)
    | (Except.error e, d2, ev) => PanicOr.ok (Except.error e, d2, ev)
  else PanicOr.panicked "assertion failed: self.is_in_transaction"

/-- `DbOpsData::rollback_in_drop`: `self.conn_handle.take().unwrap()` (panics
if the checkout is already gone), `self.conn.take()`, then on the blocking
worker: execute `ROLLBACK;` on the taken connection (`unwrap` panics if the
bridge was poisoned); on success the connection is stored back into the
checkout (`*conn_handle = conn`), on failure the error is reported through the
side channel; either way the checkout is then dropped, which is the point at
which the pool sees it again. Returns the poisoned `DbOpsData` and the trace
of the spawned task. -/
def DbOpsData.rollback_in_drop (engine : String → Bool) (d : DbOpsData) :
    PanicOr (DbOpsData × List Event) :=
  match d.conn_handle with
  | none => PanicOr.panicked "called Option::unwrap() on a None value"
  | some ck =>
    let taken := d.conn.take
    let d1 := { d with conn_handle := none, conn := taken.2 }
    match taken.1.inner with
    | none => PanicOr.panicked "called Option::unwrap() on a None value"
    | some c =>
      let (c2, ok, ev) := c.execute_batch engine "ROLLBACK;"
      if ok then
        PanicOr.ok (d1, ev ++ PooledConnection.drop ⟨⟨some c2⟩⟩)
      else
        PanicOr.ok (d1, ev ++ [Event.reportError] ++ ck.drop)

/-- `DbOpsData::transaction_dropped`: rollback in drop only when a
transaction is actually active. (This helper is never called anywhere in the
source.) -/
def DbOpsData.transaction_dropped (engine : String → Bool) (d : DbOpsData) :
    PanicOr (DbOpsData × List Event) :=
  if d.is_in_transaction then d.rollback_in_drop engine
  else PanicOr.ok (d, [])

/-- `impl Drop for DbOpsData`: if a begin/commit/rollback statement was in
flight, empty the checkout's slot (`conn_handle.as_mut().unwrap().take()`)
so the connection is not returned; else if in a transaction, rollback in
drop; else put the connection back into the checkout and let it drop.
Returns the full event trace of the drop. -/
def DbOpsData.drop (engine : String → Bool) (d : DbOpsData) :
    PanicOr (List Event) :=
  if d.is_begin_commit || d.is_begin_transaction then
    match d.conn_handle with
    | none => PanicOr.panicked "called Option::unwrap() on a None value"
    | some _ => PanicOr.ok (PooledConnection.drop ⟨⟨none⟩⟩)
  else if d.is_in_transaction then
    match d.rollback_in_drop engine with
    | PanicOr.panicked m => PanicOr.panicked m
    | PanicOr.ok (_, ev) => PanicOr.ok ev
  else
    match d.conn_handle with
    | none => PanicOr.ok []
    | some _ => PanicOr.ok (PooledConnection.drop ⟨⟨(d.conn.take).1.inner⟩⟩)

/-- `DbTransaction` (the `parent` reference carries no state used by any
operation; the transaction owns the `DbOps` bridge taken from its parent). -/
structure DbTransaction where
  ops : BlockingWrapper DbOpsData

/-- `impl Drop for DbTransaction`: `self.ops.0.get().unwrap().rollback_in_drop()`
— unconditionally, with no check of `is_in_transaction` (the conditional
helper `transaction_dropped` is never called). After `Drop::drop` the `ops`
field itself drops, running `Drop for DbOpsData` on the mutated data. The
spawned rollback's trace is serialized before the remaining drop trace. -/
def DbTransaction.drop (engine : String → Bool) (tx : DbTransaction) :
    PanicOr (List Event) :=
  match tx.ops.inner with
  | none => PanicOr.panicked "called Result::unwrap() on an Err value"
  | some d =>
    match d.rollback_in_drop engine with
    | PanicOr.panicked m => PanicOr.panicked m
    | PanicOr.ok (d1, ev1) =>
      match d1.drop engine with
      | PanicOr.panicked m => PanicOr.panicked m
      | PanicOr.ok ev2 => PanicOr.ok (ev1 ++ ev2)

/-- `DbTransaction::commit(mut self)`: one `run_blocking` call running
`commit_transaction` on the worker, after which `self` goes out of scope and
`Drop for DbTransaction` runs. Returns commit's `Result` and the combined
event trace. -/
def DbTransaction.commit (engine : String → Bool) (tx : DbTransaction) :
    PanicOr (Except Err Unit × List Event) :=
  match tx.ops.inner with
  | none => PanicOr.panicked "called Result::unwrap() on an Err value"
  | some d =>
    match d.commit_transaction engine with
    | PanicOr.panicked m => PanicOr.panicked m
    | PanicOr.ok (r, d1, ev1) =>
      match DbTransaction.drop engine ⟨⟨some d1⟩⟩ with
      | PanicOr.panicked m => PanicOr.panicked m
      | PanicOr.ok ev2 => PanicOr.ok (r, ev1 ++ ev2)

/-- `DbConnection` (and the `DbOps` it dereferences to): the bridge holding
the `DbOpsData`. -/
structure DbConnection where
  ops : BlockingWrapper DbOpsData

/-- `DbConnection::transaction_with_type`: `run_blocking(begin_transaction)`,
and on success `self.ops.0.take()` moves the `DbOpsData` into the new
`DbTransaction`, leaving the connection's own bridge empty until the
transaction ends. -/
def DbConnection.transaction_with_type (engine : String → Bool)
    (c : DbConnection) (t : TransactionType) :
    PanicOr (Except Err DbTransaction × DbConnection × List Event) :=
  match c.ops.inner with
  | none => PanicOr.ok (Except.error Err.poisoned, c, [])
  | some d =>
    match d.begin_transaction engine t with
    | PanicOr.panicked m => PanicOr.panicked m
    | PanicOr.ok (Except.ok _, d1, ev) =>
      PanicOr.ok (Except.ok ⟨⟨some d1⟩⟩, ⟨⟨none⟩⟩, ev)
    | PanicOr.ok (Except.error e, d1, ev) =>
      PanicOr.ok (Except.error e, ⟨⟨some d1⟩⟩, ev)

/-! ## Streaming queries (`do_query_stream` / `async_stream`) -/

/-- The row generator built inside `do_query_stream`: prepare the statement,
capture the columns, then pull rows one at a time from the blocking cursor,
yielding each decoded row; the first cursor/decode error ends the generator
with a single `Err` item. The cursor's rows and the decoder are parameters. -/
def generatorYields {ρ T : Type} (dec : ρ → Except Err T) :
    List ρ → List (Except Err T)
  | [] => []
  | r :: rs =>
    match dec r with
    | Except.ok v => Except.ok v :: generatorYields dec rs
    | Except.error e => [Except.error e]

/-- `async_stream` (the `#[try_stream]` function at the bottom of
`do_query_stream`): its body is empty — it receives `query_generator` but
never resumes it — so the stream it produces yields no items at all. -/
def async_stream {T : Type} (_query_generator : List (Except Err T)) :
    List (Except Err T) := []

/-- The value returned by `do_query_stream`: the stream's actual items
(`yields`), the items the inner generator would produce if driven
(`generator_yields`), the connection captured inside `QueryGeneratorData`,
and the contents of the shared return cell at creation time. -/
structure StreamHandle (T : Type) where
  yields : List (Except Err T)
  generator_yields : List (Except Err T)
  gen_conn : BlockingWrapper Conn
  cell : Option (BlockingWrapper Conn)

/-- `DbOpsData::do_query_stream`: install a return cell if absent, move the
connection out of `self` into the generator's `QueryGeneratorData`, build the
row generator, and wrap it in `async_stream`. -/
def DbOpsData.do_query_stream {ρ T : Type} (d : DbOpsData)
    (dec : ρ → Except Err T) (rows : List ρ) : DbOpsData × StreamHandle T :=
  let cell0 : Option (BlockingWrapper Conn) :=
    match d.return_cell with
    | none => none
    | some c => c
  let taken := d.conn.take
  let d1 := { d with return_cell := some cell0, conn := taken.2 }
  (d1, { yields := async_stream (generatorYields dec rows),
         generator_yields := generatorYields dec rows,
         gen_conn := taken.1,
         cell := cell0 })

/-- `impl Drop for QueryGeneratorData`: when the stream (and with it the
generator) is dropped — exhausted or abandoned — the captured connection is
stored into the shared return cell: `*self.return_cell.lock() =
Some(self.conn.take())`. Returns the new cell contents. -/
def StreamHandle.drop {T : Type} (s : StreamHandle T) :
    Option (BlockingWrapper Conn) :=
  some (s.gen_conn.take).1

/-- The owning `DbOpsData` after the stream has been dropped. The shared
`Arc<Mutex<Option<_>>>` cell is modelled by propagating the write into the
owner's copy of the cell contents; no code in the module ever moves the
connection from the cell back into the `conn` field. -/
def DbOpsData.after_stream_drop {T : Type} (d : DbOpsData)
    (s : StreamHandle T) : DbOpsData :=
  { d with return_cell := some s.drop }

/-! ## Serialization (`serializable.rs`) -/

/-- Little-endian byte encoding of `n` on `k` bytes. -/
def toLEBytes : Nat → Nat → List Nat
  | 0, _ => []
  | k + 1, n => n % 256 :: toLEBytes k (n / 256)

/-- Little-endian byte decoding. -/
def fromLEBytes : List Nat → Nat
  | [] => 0
  | b :: bs => b + 256 * fromLEBytes bs

/-- bincode's varint encoding of a `u64`
(`DefaultOptions::new().with_varint_encoding()`): values below 251 as a
single byte; otherwise a width marker (251 = u16, 252 = u32, 253 = u64)
followed by the little-endian fixed-width value. -/
def varintEncodeU64 (n : Nat) : List Nat :=
  if n < 251 then [n]
  else if n < 2 ^ 16 then 251 :: toLEBytes 2 n
  else if n < 2 ^ 32 then 252 :: toLEBytes 4 n
  else 253 :: toLEBytes 8 n

/-- bincode's varint decoding of a `u64`: returns the value and the bytes
left over. -/
def varintDecodeU64 : List Nat → Option (Nat × List Nat)
  | [] => none
  | b :: rest =>
    if b < 251 then some (b, rest)
    else if b = 251 then
      match rest with
      | b0 :: b1 :: rest2 => some (fromLEBytes [b0, b1], rest2)
      | _ => none
    else if b = 252 then
      match rest with
      | b0 :: b1 :: b2 :: b3 :: rest2 => some (fromLEBytes [b0, b1, b2, b3], rest2)
      | _ => none
    else if b = 253 then
      match rest with
      | b0 :: b1 :: b2 :: b3 :: b4 :: b5 :: b6 :: b7 :: rest2 =>
        some (fromLEBytes [b0, b1, b2, b3, b4, b5, b6, b7], rest2)
      | _ => none
    else none

/-- Zig-zag encoding of a signed 64-bit value: `(n << 1) ^ (n >> 63)`. -/
def zigzag (n : Int) : Nat := (if 0 ≤ n then 2 * n else -2 * n - 1).toNat

/-- Zig-zag decoding. -/
def unzigzag (z : Nat) : Int :=
  if z % 2 = 0 then Int.ofNat (z / 2) else -Int.ofNat ((z + 1) / 2)

/-- `BincodeFormat::serialize` at type `i64`: zig-zag then varint
(the varint option applies zig-zag to signed integers). -/
def BincodeFormat.serializeI64 (v : Int) : List Nat :=
  varintEncodeU64 (zigzag v)

/-- `BincodeFormat::deserialize` at type `i64`. `DefaultOptions` rejects
trailing bytes, so decoding succeeds only when the input is consumed
exactly. -/
def BincodeFormat.deserializeI64 (l : List Nat) : Option Int :=
  match varintDecodeU64 l with
  | some (z, []) => some (unzigzag z)
  | _ => none

/-- Continuation byte of a UTF-8 sequence. -/
def utf8Cont (b : Nat) : Bool := decide (0x80 ≤ b) && decide (b ≤ 0xBF)

/-- UTF-8 validity of a byte sequence, as checked by `String::from_utf8`
(rejecting overlong encodings, surrogates, and values beyond U+10FFFF). -/
def utf8Valid : List Nat → Bool
  | [] => true
  | b :: rest =>
    if b ≤ 0x7F then utf8Valid rest
    else if 0xC2 ≤ b ∧ b ≤ 0xDF then
      match rest with
      | b1 :: rest2 => utf8Cont b1 && utf8Valid rest2
      | [] => false
    else if b = 0xE0 then
      match rest with
      | b1 :: b2 :: rest2 =>
        (decide (0xA0 ≤ b1) && decide (b1 ≤ 0xBF)) && utf8Cont b2 && utf8Valid rest2
      | _ => false
    else if (0xE1 ≤ b ∧ b ≤ 0xEC) ∨ b = 0xEE ∨ b = 0xEF then
      match rest with
      | b1 :: b2 :: rest2 => utf8Cont b1 && utf8Cont b2 && utf8Valid rest2
      | _ => false
    else if b = 0xED then
      match rest with
      | b1 :: b2 :: rest2 =>
        (decide (0x80 ≤ b1) && decide (b1 ≤ 0x9F)) && utf8Cont b2 && utf8Valid rest2
      | _ => false
    else if b = 0xF0 then
      match rest with
      | b1 :: b2 :: b3 :: rest2 =>
        (decide (0x90 ≤ b1) && decide (b1 ≤ 0xBF)) && utf8Cont b2 && utf8Cont b3 &&
          utf8Valid rest2
      | _ => false
    else if 0xF1 ≤ b ∧ b ≤ 0xF3 then
      match rest with
      | b1 :: b2 :: b3 :: rest2 =>
        utf8Cont b1 && utf8Cont b2 && utf8Cont b3 && utf8Valid rest2
      | _ => false
    else if b = 0xF4 then
      match rest with
      | b1 :: b2 :: b3 :: rest2 =>
        (decide (0x80 ≤ b1) && decide (b1 ≤ 0x8F)) && utf8Cont b2 && utf8Cont b3 &&
          utf8Valid rest2
      | _ => false
    else false

/-- A Rust `String`: a byte buffer that is valid UTF-8. -/
structure RustString where
  bytes : List Nat
  valid : utf8Valid bytes = true

/-- The empty string. -/
def emptyRustString : RustString := ⟨[], rfl⟩

/-- Modelled from the spec: `StringWrapper` (in `sylphie_utils::strings`, not
among the given sources) wraps string contents; `StringWrapper::Owned` holds
an owned string and `as_str` exposes the contents. -/
inductive StringWrapper where
  | Owned : RustString → StringWrapper

/-- `StringWrapper::as_str`. -/
def StringWrapper.as_str : StringWrapper → RustString
  | StringWrapper.Owned s => s

/-- `serde_bytes::ByteBuf`: an owned byte buffer. -/
structure ByteBuf where
  bytes : List Nat
deriving DecidableEq, Repr

/-- `private::DirectFormats` for `Vec<u8>`: serialize is `val.clone()`. -/
def DirectFormats.serializeVec (v : List Nat) : Except Err (List Nat) :=
  Except.ok v

/-- `private::DirectFormats` for `Vec<u8>`: deserialize is `val.to_vec()`. -/
def DirectFormats.deserializeVec (l : List Nat) : Except Err (List Nat) :=
  Except.ok l

/-- `private::DirectFormats` for `ByteBuf`: serialize is `val.to_vec()`. -/
def DirectFormats.serializeByteBuf (b : ByteBuf) : Except Err (List Nat) :=
  Except.ok b.bytes

/-- `private::DirectFormats` for `ByteBuf`: deserialize is
`ByteBuf::from(val.to_vec())`. -/
def DirectFormats.deserializeByteBuf (l : List Nat) : Except Err ByteBuf :=
  Except.ok ⟨l⟩

/-- `private::DirectFormats` for `String`: serialize is
`val.clone().into_bytes()`. -/
def DirectFormats.serializeString (s : RustString) : Except Err (List Nat) :=
  Except.ok s.bytes

/-- `private::DirectFormats` for `String`: deserialize is
`String::from_utf8(val.to_vec())?`. -/
def DirectFormats.deserializeString (l : List Nat) : Except Err RustString :=
  if h : utf8Valid l = true then Except.ok ⟨l, h⟩
  else Except.error (Err.other "invalid utf-8 sequence")

/-- `private::DirectFormats` for `StringWrapper`: serialize is
`val.as_str().to_string().into_bytes()`. -/
def DirectFormats.serializeStringWrapper (w : StringWrapper) :
    Except Err (List Nat) :=
  Except.ok w.as_str.bytes

/-- `private::DirectFormats` for `StringWrapper`: deserialize is
`StringWrapper::Owned(String::from_utf8(val.to_vec())?.into())`. -/
def DirectFormats.deserializeStringWrapper (l : List Nat) :
    Except Err StringWrapper :=
  if h : utf8Valid l = true then Except.ok (StringWrapper.Owned ⟨l, h⟩)
  else Except.error (Err.other "invalid utf-8 sequence")

/-- The format a `DbSerializable` implementation is registered with (the
`Format` associated type). -/
inductive FormatTag where
  | BincodeFormat | CborFormat | DirectFormats
deriving DecidableEq, Repr

/-- The registration data of one `DbSerializable` implementation produced by
the `basic_defs!` macro: schema id, schema version, format. -/
structure SerializableDescr where
  id : String
  schema_version : Nat
  format : FormatTag
deriving DecidableEq, Repr

/-- `impl DbSerializable for String` from `basic_defs!`. -/
def stringDescr : SerializableDescr :=
  ⟨"std::string::String", 0, FormatTag.DirectFormats⟩

/-- `impl DbSerializable for StringWrapper` from `basic_defs!`. -/
def stringWrapperDescr : SerializableDescr :=
  ⟨"std::string::String", 0, FormatTag.DirectFormats⟩

/-- `impl DbSerializable for Vec<u8>` from `basic_defs!`. -/
def vecU8Descr : SerializableDescr :=
  ⟨"std::vec::Vec<u8>", 0, FormatTag.DirectFormats⟩

/-- `impl DbSerializable for ByteBuf` from `basic_defs!`. -/
def byteBufDescr : SerializableDescr :=
  ⟨"std::vec::Vec<u8>", 0, FormatTag.DirectFormats⟩

/-! ## Schema-versioned decoding and migration -/

/-- One `DbSerializable` implementation at type `T`: current decoder, schema
id/version, and the migration hooks. -/
structure DbSerializableInstance (T : Type) where
  deserialize : List Nat → Except Err T
  id : String
  schema_version : Nat
  can_migrate_from : String → Nat → Bool
  do_migration : String → Nat → List Nat → Except Err T

/-- The trait's default `can_migrate_from`: always `false`. -/
def defaultCanMigrateFrom : String → Nat → Bool := fun _ _ => false

/-- The trait's default `do_migration`: always
`bail!("Migration not supported.")`. -/
def defaultDoMigration (T : Type) : String → Nat → List Nat → Except Err T :=
  fun _ _ _ => Except.error (Err.other "Migration not supported.")

/-- Modelled from the spec: the KVS decode path (the `kvs` module is not
among the given sources; only the trait it consumes is). If the stored
id/version match the type's current ones, decode directly with the current
format; otherwise ask `can_migrate_from`; if it allows, decode through
`do_migration`; otherwise fail with MigrationUnsupported. -/
def decodeStored {T : Type} (inst : DbSerializableInstance T)
    (stored_id : String) (stored_version : Nat) (data : List Nat) :
    Except Err T :=
  if stored_id = inst.id ∧ stored_version = inst.schema_version then
    inst.deserialize data
  else if inst.can_migrate_from stored_id stored_version then
    inst.do_migration stored_id stored_version data
  else
    Except.error Err.migrationUnsupported

/-! ## ConnectionManager -/

/-- `ConnectionManager::has_broken`: `conn.inner.is_some()`. The pool
consults it on checkout release; a `true` return marks the connection broken
and makes the pool discard it instead of recycling it. -/
def ConnectionManager.has_broken (conn : BlockingWrapper Conn) : Bool :=
  conn.inner.isSome

/-! ## Concrete states and trace predicates used by the theorems -/

/-- An engine on which every statement succeeds. -/
def engineAllOk : String → Bool := fun _ => true

/-- An engine mirroring sqlite around a successful COMMIT: every statement
succeeds except a ROLLBACK issued outside a transaction, which fails. -/
def engineNoRollback : String → Bool := fun sql => !(sql == "ROLLBACK;")

/-- A checkout whose slot is empty — the shape every checkout held inside a
`DbOpsData` has, since `Database::connect` moves the connection out of the
checkout into the `conn` field. -/
def emptyCheckout : PooledConnection := ⟨⟨none⟩⟩

/-- A `DbOpsData` inside an active transaction, with no begin/commit
statement in flight. -/
def dInTxState : DbOpsData :=
  ⟨some emptyCheckout, ⟨some ⟨["BEGIN DEFERRED TRANSACTION;"]⟩⟩,
    false, false, true, none⟩

/-- A `DbOpsData` dropped after a COMMIT/ROLLBACK statement failed: the early
return of `commit_transaction` leaves `is_begin_commit` and
`is_in_transaction` both set. -/
def dMidCommitState : DbOpsData :=
  ⟨some emptyCheckout, ⟨some ⟨["BEGIN DEFERRED TRANSACTION;"]⟩⟩,
    false, true, true, none⟩

/-- An idle `DbOpsData` fresh out of `Database::connect`. -/
def dIdleState : DbOpsData :=
  ⟨some emptyCheckout, ⟨some ⟨[]⟩⟩, false, false, false, none⟩

/-- A `DbTransaction` over an active transaction. -/
def txActive : DbTransaction := ⟨⟨some dInTxState⟩⟩

/-- Whether a trace contains a ROLLBACK statement issued on the worker. -/
def issuesRollback (tr : List Event) : Bool :=
  tr.any fun e =>
    match e with
    | Event.stmt "ROLLBACK;" _ => true
    | _ => false

/-- Whether the trace hands the checkout back to the Pool still holding the
connection before any successful ROLLBACK statement has completed. -/
def releasedToPoolBeforeRollback : List Event → Bool
  | [] => false
  | Event.stmt "ROLLBACK;" true :: _ => false
  | Event.checkoutDropped true :: _ => true
  | _ :: tr => releasedToPoolBeforeRollback tr

/-- The result of `do_query_stream` on a one-row result set over an idle
`DbOpsData` with a decoder that always succeeds. -/
def streamTestRes : DbOpsData × StreamHandle Nat :=
  dIdleState.do_query_stream (fun n : Nat => Except.ok n) [42]

/-- A `DbSerializable` implementation at type `Nat` that keeps both default
migration hooks (the common case: no override). -/
def natInstanceDefault : DbSerializableInstance Nat :=
  ⟨fun _ => Except.ok 0, "u8", 0, defaultCanMigrateFrom, defaultDoMigration Nat⟩

/-! ## General lemmas about the encodings -/

theorem varint_roundtrip (n : Nat) (h : n < 2 ^ 64) :
    varintDecodeU64 (varintEncodeU64 n) = some (n, []) := by
  unfold varintEncodeU64
  split_ifs with h1 h2 h3
  · simp [varintDecodeU64, h1]
  · simp only [toLEBytes, varintDecodeU64, fromLEBytes]
    norm_num
    omega
  · simp only [toLEBytes, varintDecodeU64, fromLEBytes]
    norm_num
    omega
  · simp only [toLEBytes, varintDecodeU64, fromLEBytes]
    norm_num
    omega

theorem unzigzag_zigzag (v : Int) (h1 : -(2 ^ 63) ≤ v) (h2 : v < 2 ^ 63) :
    unzigzag (zigzag v) = v := by
  simp only [zigzag, unzigzag, Int.ofNat_eq_coe]
  split_ifs <;> omega

theorem zigzag_lt (v : Int) (h1 : -(2 ^ 63) ≤ v) (h2 : v < 2 ^ 63) :
    zigzag v < 2 ^ 64 := by
  unfold zigzag
  split_ifs <;> omega

/-! ## Claim theorems -/

/-- C1 counterexample: a `DbOpsData` dropped while `is_in_transaction` is
true but with a commit/rollback statement in flight (`is_begin_commit` set,
the state a failed COMMIT leaves behind) issues no ROLLBACK at all: the drop
takes the first branch, invalidates the checkout and discards the
connection. -/
theorem dbops_drop_mid_commit_skips_rollback :
    dMidCommitState.is_in_transaction = true ∧
    DbOpsData.drop engineAllOk dMidCommitState =
      PanicOr.ok [Event.checkoutDropped false] ∧
    issuesRollback [Event.checkoutDropped false] = false :=
  ⟨rfl, rfl, rfl⟩

/-- C1 (amended): for every `DbOpsData` dropped while `is_in_transaction` is
true and no begin/commit/rollback statement is in flight, a ROLLBACK is
issued on the blocking worker, and the checkout is handed back to the Pool
holding the connection only after — and only if — that ROLLBACK completed
successfully (on failure the error is reported and the checkout is returned
empty, so the connection is discarded). -/
theorem dbops_drop_in_transaction_rolls_back (engine : String → Bool)
    (d : DbOpsData) (c : Conn)
    (hbt : d.is_begin_transaction = false) (hbc : d.is_begin_commit = false)
    (hit : d.is_in_transaction = true)
    (hck : d.conn_handle = some emptyCheckout)
    (hc : d.conn = ⟨some c⟩) :
    DbOpsData.drop engine d = PanicOr.ok
      (if engine "ROLLBACK;" then
        [Event.stmt "ROLLBACK;" true, Event.checkoutDropped true]
      else
        [Event.stmt "ROLLBACK;" false, Event.reportError,
          Event.checkoutDropped false]) ∧
    (∀ tr : List Event, DbOpsData.drop engine d = PanicOr.ok tr →
      issuesRollback tr = true ∧ releasedToPoolBeforeRollback tr = false) := by
  have h1 : DbOpsData.drop engine d = PanicOr.ok
      (if engine "ROLLBACK;" then
        [Event.stmt "ROLLBACK;" true, Event.checkoutDropped true]
      else
        [Event.stmt "ROLLBACK;" false, Event.reportError,
          Event.checkoutDropped false]) := by
    cases hE : engine "ROLLBACK;" <;>
      simp [DbOpsData.drop, DbOpsData.rollback_in_drop, BlockingWrapper.take,
        Conn.execute_batch, PooledConnection.drop, emptyCheckout,
        hbt, hbc, hit, hck, hc, hE]
  refine ⟨h1, ?_⟩
  intro tr htr
  rw [h1] at htr
  cases hE : engine "ROLLBACK;" <;> rw [hE] at htr <;>
    simp only [PanicOr.ok.injEq] at htr <;> subst htr <;>
    exact ⟨rfl, rfl⟩

/-- C1 witness: the amended statement at a concrete in-transaction state and
an engine accepting the ROLLBACK. -/
theorem dbops_drop_in_transaction_rolls_back_witness :
    DbOpsData.drop engineAllOk dInTxState =
      PanicOr.ok [Event.stmt "ROLLBACK;" true, Event.checkoutDropped true] ∧
    issuesRollback
      [Event.stmt "ROLLBACK;" true, Event.checkoutDropped true] = true ∧
    releasedToPoolBeforeRollback
      [Event.stmt "ROLLBACK;" true, Event.checkoutDropped true] = false := by
  have h := dbops_drop_in_transaction_rolls_back engineAllOk dInTxState
    ⟨["BEGIN DEFERRED TRANSACTION;"]⟩ rfl rfl rfl rfl rfl
  refine ⟨by simpa using h.1, ?_, ?_⟩
  · exact (h.2 _ (by simpa using h.1)).1
  · exact (h.2 _ (by simpa using h.1)).2

/-- C2: `commit()` does issue exactly one COMMIT and clear
`is_in_transaction` (first conjunct) — but the `Drop` glue then
unconditionally calls `rollback_in_drop`, so the full `commit()` call path
additionally issues a ROLLBACK after the COMMIT (which fails, since no
transaction is active), reports the failure through the side channel, and
returns the checkout empty, discarding the connection instead of releasing
it toward the parent. This contradicts the claim's "no ROLLBACK issued
afterwards". -/
theorem transaction_commit_issues_rollback_after_commit :
    DbOpsData.commit_transaction engineNoRollback dInTxState =
      PanicOr.ok (Except.ok (),
        ⟨some emptyCheckout,
          ⟨some ⟨["BEGIN DEFERRED TRANSACTION;", "COMMIT;"]⟩⟩,
          false, false, false, none⟩,
        [Event.stmt "COMMIT;" true]) ∧
    DbTransaction.commit engineNoRollback txActive =
      PanicOr.ok (Except.ok (),
        [Event.stmt "COMMIT;" true, Event.stmt "ROLLBACK;" false,
          Event.reportError, Event.checkoutDropped false]) ∧
    issuesRollback
      [Event.stmt "COMMIT;" true, Event.stmt "ROLLBACK;" false,
        Event.reportError, Event.checkoutDropped false] = true :=
  ⟨rfl, rfl, rfl⟩

/-- C3: a `BlockingWrapper` whose inner value is absent fails every
`run_blocking` call immediately with the poisoned error, dispatches nothing
to the worker, and stays empty, so every later call on it fails the same
way until the bridge is replaced. -/
theorem poisoned_bridge_rejects_all_calls {α β : Type}
    (w : BlockingWrapper α) (f : α → α × Except Err β)
    (ops : List (α → α × Except Err β)) (h : w.inner = none) :
    w.run_blocking f =
      ⟨Except.error Err.poisoned, w, false⟩ ∧
    (w.run_many ops).1 =
      ops.map (fun _ => (Except.error Err.poisoned, false)) ∧
    (w.run_many ops).2 = w := by
  obtain ⟨inner⟩ := w
  simp only at h
  subst h
  refine ⟨rfl, ?_, ?_⟩ <;> induction ops with
  | nil => rfl
  | cons f fs ih =>
    simpa [BlockingWrapper.run_many, BlockingWrapper.run_blocking] using ih

/-- C3 witness: the theorem applied to a concrete poisoned bridge and a
concrete list of two operations. -/
theorem poisoned_bridge_rejects_all_calls_witness :
    BlockingWrapper.run_blocking (⟨none⟩ : BlockingWrapper Conn)
        (fun c => (c, Except.ok ())) =
      ⟨Except.error Err.poisoned, ⟨none⟩, false⟩ ∧
    (BlockingWrapper.run_many (⟨none⟩ : BlockingWrapper Conn)
        [fun c => (c, Except.ok ()), fun c => (c, Except.error Err.poisoned)]).1 =
      [(Except.error Err.poisoned, false), (Except.error Err.poisoned, false)] ∧
    (BlockingWrapper.run_many (⟨none⟩ : BlockingWrapper Conn)
        [fun c => (c, Except.ok ()), fun c => (c, Except.error Err.poisoned)]).2 =
      (⟨none⟩ : BlockingWrapper Conn) := by
  have h := poisoned_bridge_rejects_all_calls (⟨none⟩ : BlockingWrapper Conn)
    (fun c => (c, Except.ok ()))
    [fun c => (c, Except.ok ()), fun c => (c, Except.error Err.poisoned)] rfl
  exact ⟨h.1, by simpa using h.2.1, h.2.2⟩

/-- C4: the streaming query over a one-row result set produces a stream that
yields zero items (the inner generator would yield the decoded row, but the
`async_stream` glue has an empty body and never drives it); the connection is
taken out of the owning `DbOpsData`, parked in the return cell when the
stream is dropped, and never moved back, so a subsequent ordinary statement
on the owner fails with the poisoned error. This contradicts both halves of
the claim. -/
theorem stream_query_yields_nothing_and_poisons_ops :
    streamTestRes.2.generator_yields = [Except.ok 42] ∧
    streamTestRes.2.yields = [] ∧
    streamTestRes.1.conn = ⟨none⟩ ∧
    (streamTestRes.1.after_stream_drop streamTestRes.2).return_cell =
      some (some ⟨some ⟨[]⟩⟩) ∧
    (streamTestRes.1.after_stream_drop streamTestRes.2).conn = ⟨none⟩ ∧
    ((streamTestRes.1.after_stream_drop streamTestRes.2).execute_batch
        engineAllOk "SELECT 1;").1 = Except.error Err.poisoned :=
  ⟨rfl, rfl, rfl, rfl, rfl, rfl⟩

/-- C5: `begin_transaction` on an idle `DbOpsData` (with a live connection
and an engine accepting the statement) issues exactly the BEGIN statement
matching the transaction kind and sets `is_in_transaction`; on a non-idle
one it hits the `assert!` and panics (fatal, not an error return). The
last three conjuncts record the statement text chosen for each kind. -/
theorem begin_transaction_state_machine (engine : String → Bool)
    (d : DbOpsData) (t : TransactionType) (c : Conn)
    (hc : d.conn = ⟨some c⟩) (hOk : engine t.sql = true) :
    (d.is_in_transaction = false →
      d.begin_transaction engine t =
        PanicOr.ok (Except.ok (),
          { d with is_begin_transaction := false,
                   is_in_transaction := true,
                   conn := ⟨some ⟨c.history ++ [t.sql]⟩⟩ },
          [Event.stmt t.sql true])) ∧
    (d.is_in_transaction = true →
      d.begin_transaction engine t =
        PanicOr.panicked "assertion failed: !self.is_in_transaction") ∧
    TransactionType.Deferred.sql = "BEGIN DEFERRED TRANSACTION;" ∧
    TransactionType.Immediate.sql = "BEGIN IMMEDIATE TRANSACTION;" ∧
    TransactionType.Exclusive.sql = "BEGIN EXCLUSIVE TRANSACTION;" := by
  refine ⟨?_, ?_, rfl, rfl, rfl⟩
  · intro hit
    simp [DbOpsData.begin_transaction, DbOpsData.execute_batch,
      Conn.execute_batch, hit, hc, hOk]
  · intro hit
    simp [DbOpsData.begin_transaction, hit]

/-- C5 witness: the theorem at a concrete idle state (Deferred kind) and a
concrete in-transaction state. -/
theorem begin_transaction_state_machine_witness :
    DbOpsData.begin_transaction engineAllOk dIdleState
        TransactionType.Deferred =
      PanicOr.ok (Except.ok (),
        ⟨some emptyCheckout, ⟨some ⟨["BEGIN DEFERRED TRANSACTION;"]⟩⟩,
          false, false, true, none⟩,
        [Event.stmt "BEGIN DEFERRED TRANSACTION;" true]) ∧
    DbOpsData.begin_transaction engineAllOk dInTxState
        TransactionType.Deferred =
      PanicOr.panicked "assertion failed: !self.is_in_transaction" := by
  constructor
  · have h := (begin_transaction_state_machine engineAllOk dIdleState
      TransactionType.Deferred ⟨[]⟩ rfl rfl).1 rfl
    simpa [dIdleState] using h
  · exact (begin_transaction_state_machine engineAllOk dInTxState
      TransactionType.Deferred ⟨["BEGIN DEFERRED TRANSACTION;"]⟩ rfl rfl).2.1 rfl

/-- C6: round trips of the built-in formats — the varint bincode format on
the full signed 64-bit range, and the direct passthrough format on strings,
byte vectors and byte buffers. -/
theorem builtin_format_roundtrip :
    (∀ v : Int, -(2 ^ 63) ≤ v → v < 2 ^ 63 →
      BincodeFormat.deserializeI64 (BincodeFormat.serializeI64 v) = some v) ∧
    (∀ s : RustString,
      (DirectFormats.serializeString s).bind DirectFormats.deserializeString =
        Except.ok s) ∧
    (∀ v : List Nat,
      (DirectFormats.serializeVec v).bind DirectFormats.deserializeVec =
        Except.ok v) ∧
    (∀ b : ByteBuf,
      (DirectFormats.serializeByteBuf b).bind DirectFormats.deserializeByteBuf =
        Except.ok b) := by
  refine ⟨?_, ?_, fun _ => rfl, fun _ => rfl⟩
  · intro v h1 h2
    simp [BincodeFormat.serializeI64, BincodeFormat.deserializeI64,
      varint_roundtrip _ (zigzag_lt v h1 h2), unzigzag_zigzag v h1 h2]
  · intro s
    obtain ⟨bs, hv⟩ := s
    simp [DirectFormats.serializeString, DirectFormats.deserializeString,
      Except.bind, hv]

/-- C6 witness: the round trip at the boundary integers 0, −1, the minimum
and maximum signed 64-bit values, the empty string, the empty byte vector
and the empty byte buffer. -/
theorem builtin_format_roundtrip_witness :
    BincodeFormat.deserializeI64 (BincodeFormat.serializeI64 0) = some 0 ∧
    BincodeFormat.deserializeI64 (BincodeFormat.serializeI64 (-1)) =
      some (-1) ∧
    BincodeFormat.deserializeI64 (BincodeFormat.serializeI64 (-(2 ^ 63))) =
      some (-(2 ^ 63)) ∧
    BincodeFormat.deserializeI64 (BincodeFormat.serializeI64 (2 ^ 63 - 1)) =
      some (2 ^ 63 - 1) ∧
    (DirectFormats.serializeString emptyRustString).bind
      DirectFormats.deserializeString = Except.ok emptyRustString ∧
    (DirectFormats.serializeVec []).bind DirectFormats.deserializeVec =
      Except.ok [] ∧
    (DirectFormats.serializeByteBuf ⟨[]⟩).bind
      DirectFormats.deserializeByteBuf = Except.ok ⟨[]⟩ :=
  ⟨builtin_format_roundtrip.1 0 (by norm_num) (by norm_num),
   builtin_format_roundtrip.1 (-1) (by norm_num) (by norm_num),
   builtin_format_roundtrip.1 (-(2 ^ 63)) (by norm_num) (by norm_num),
   builtin_format_roundtrip.1 (2 ^ 63 - 1) (by norm_num) (by norm_num),
   builtin_format_roundtrip.2.1 emptyRustString,
   builtin_format_roundtrip.2.2.1 [],
   builtin_format_roundtrip.2.2.2 ⟨[]⟩⟩

/-- C7: `has_broken` returns exactly whether the wrapper still holds its
inner value — `true` (broken, discard) for a wrapper holding its connection,
`false` (not broken) for a poisoned one. The result never depends on whether
the value's last operation failed, only on presence; the polarity is the
opposite of the claim's. -/
theorem has_broken_reports_inner_presence :
    (∀ w : BlockingWrapper Conn,
      ConnectionManager.has_broken w = w.inner.isSome) ∧
    ConnectionManager.has_broken ⟨some ⟨[]⟩⟩ = true ∧
    ConnectionManager.has_broken ⟨none⟩ = false :=
  ⟨fun _ => rfl, rfl, rfl⟩

/-- C8: decoding a stored value whose schema id/version do not match the
current ones consults `can_migrate_from`; if it allows, the result is
`do_migration`; if not, decoding fails with MigrationUnsupported — and under
the trait's default hooks every mismatch fails that way. -/
theorem decode_dispatch_migration {T : Type} (inst : DbSerializableInstance T)
    (sid : String) (sver : Nat) (data : List Nat)
    (hmis : ¬(sid = inst.id ∧ sver = inst.schema_version)) :
    (inst.can_migrate_from sid sver = true →
      decodeStored inst sid sver data =
        inst.do_migration sid sver data) ∧
    (inst.can_migrate_from sid sver = false →
      decodeStored inst sid sver data =
        Except.error Err.migrationUnsupported) ∧
    (inst.can_migrate_from = defaultCanMigrateFrom →
      decodeStored inst sid sver data =
        Except.error Err.migrationUnsupported) := by
  refine ⟨fun h => ?_, fun h => ?_, fun h => ?_⟩ <;>
    simp [decodeStored, hmis, h, defaultCanMigrateFrom]

/-- C8 witness: a mismatched id/version on an implementation keeping both
default hooks fails with MigrationUnsupported. -/
theorem decode_dispatch_migration_witness :
    decodeStored natInstanceDefault "old_schema" 1 [] =
      Except.error Err.migrationUnsupported :=
  (decode_dispatch_migration natInstanceDefault "old_schema" 1 []
    (by simp [natInstanceDefault])).2.2 rfl

/-- C9: a `run_blocking` call whose operation itself returns an error still
reinserts the (possibly mutated) value into the bridge and returns the error
to the caller; the bridge is not poisoned, and the next call dispatches
normally. -/
theorem run_blocking_error_reinserts_value {α β : Type}
    (w : BlockingWrapper α) (v v2 : α) (e : Err)
    (func : α → α × Except Err β)
    (hv : w.inner = some v) (hf : func v = (v2, Except.error e)) :
    w.run_blocking func = ⟨Except.error e, ⟨some v2⟩, true⟩ ∧
    ∀ func2 : α → α × Except Err β,
      ((w.run_blocking func).wrapper.run_blocking func2).dispatched = true := by
  obtain ⟨inner⟩ := w
  simp only at hv
  subst hv
  have h1 : BlockingWrapper.run_blocking ⟨some v⟩ func =
      ⟨Except.error e, ⟨some v2⟩, true⟩ := by
    simp [BlockingWrapper.run_blocking, hf]
  refine ⟨h1, fun func2 => ?_⟩
  rw [h1]
  rcases hf2 : func2 v2 with ⟨v3, r⟩
  simp [BlockingWrapper.run_blocking, hf2]

/-- C9 witness: a concrete failing operation on a live bridge. -/
theorem run_blocking_error_reinserts_value_witness :
    BlockingWrapper.run_blocking (⟨some ⟨[]⟩⟩ : BlockingWrapper Conn)
        (fun c => (c, (Except.error (Err.sqlError "SELECT 1") : Except Err Unit))) =
      ⟨Except.error (Err.sqlError "SELECT 1"), ⟨some ⟨[]⟩⟩, true⟩ ∧
    ((BlockingWrapper.run_blocking (⟨some ⟨[]⟩⟩ : BlockingWrapper Conn)
        (fun c => (c, (Except.error (Err.sqlError "SELECT 1") : Except Err Unit)))).wrapper.run_blocking
      (fun c => (c, (Except.ok () : Except Err Unit)))).dispatched = true := by
  have h := run_blocking_error_reinserts_value
    (⟨some ⟨[]⟩⟩ : BlockingWrapper Conn) ⟨[]⟩ ⟨[]⟩ (Err.sqlError "SELECT 1")
    (fun c => (c, (Except.error (Err.sqlError "SELECT 1") : Except Err Unit)))
    rfl rfl
  exact ⟨h.1, h.2 _⟩

/-- C10: `String` and `StringWrapper` are registered with the same schema id
and the same direct passthrough format, as are `Vec<u8>` and `ByteBuf`; a
value encoded as one member of a pair decodes as the other member with equal
contents. -/
theorem shared_schema_id_cross_roundtrip :
    stringDescr.id = stringWrapperDescr.id ∧
    stringDescr.format = stringWrapperDescr.format ∧
    stringDescr.id = "std::string::String" ∧
    stringDescr.format = FormatTag.DirectFormats ∧
    vecU8Descr.id = byteBufDescr.id ∧
    vecU8Descr.format = byteBufDescr.format ∧
    vecU8Descr.id = "std::vec::Vec<u8>" ∧
    vecU8Descr.format = FormatTag.DirectFormats ∧
    (∀ s : RustString,
      (DirectFormats.serializeString s).bind
        DirectFormats.deserializeStringWrapper =
          Except.ok (StringWrapper.Owned s)) ∧
    (∀ w : StringWrapper,
      (DirectFormats.serializeStringWrapper w).bind
        DirectFormats.deserializeString = Except.ok w.as_str) ∧
    (∀ v : List Nat,
      (DirectFormats.serializeVec v).bind DirectFormats.deserializeByteBuf =
        Except.ok ⟨v⟩) ∧
    (∀ b : ByteBuf,
      (DirectFormats.serializeByteBuf b).bind DirectFormats.deserializeVec =
        Except.ok b.bytes) := by
  refine ⟨rfl, rfl, rfl, rfl, rfl, rfl, rfl, rfl, ?_, ?_,
    fun _ => rfl, fun _ => rfl⟩
  · intro s
    obtain ⟨bs, hv⟩ := s
    simp [DirectFormats.serializeString,
      DirectFormats.deserializeStringWrapper, Except.bind, hv]
  · intro w
    obtain ⟨s⟩ := w
    obtain ⟨bs, hv⟩ := s
    simp [DirectFormats.serializeStringWrapper,
      DirectFormats.deserializeString, StringWrapper.as_str, Except.bind, hv]

end Sylphie
